import Mathlib

/-!
Shallow embedding of the VPP plugin `wireshark_bridge.c` (the Bridge
Dispatcher core): the interface registry, the bounded capture queue, the
frame encoder / batcher, and the enable/disable lifecycle handlers.

Modelling conventions:
* machine integers are `Nat` (u8/u32/u64 values) or `Int` (C `int`);
  where the C code masks (`& 0xFF`) or shifts, the model uses `&&&`/`>>>`;
* the packet payload is a `List Nat` of bytes; the C struct's separate
  `packet_length` field always equals `vec_len (packet_data)` because
  `wireshark_bridge_send_packet` creates the copy with exactly
  `packet_length` bytes, so the model stores only the list;
* the C `f64 timestamp` is split into integer seconds and fractional
  microseconds by the encoder; the floating-point split itself is not
  modelled: a queued record carries the two integers `ts_sec`/`ts_usec`;
* syscalls that can fail for environmental reasons (`socket`,
  `pthread_create`, `strdup`) are modelled as succeeding; `sendto`
  success/failure is an environment input, modelled by an oracle
  `Nat → Bool` giving the outcome of the k-th send attempt of a pass;
* the mutex/condvar discipline is not modelled: operations are atomic
  steps on the shared state, matching the source's lock granularity;
* the hash table `interface_index_by_sw_if_index` plus the `interfaces`
  vector implement a lookup by `sw_if_index`; the model uses a list
  searched by `sw_if_index` (ids are unique by construction, each id is
  inserted at most once by `wireshark_bridge_add_interface`).
-/

namespace WiresharkBridge

/-- Configuration constant WIRESHARK_BRIDGE_MAX_QUEUE_SIZE from the source. -/
def WIRESHARK_BRIDGE_MAX_QUEUE_SIZE : Nat := 10000

/-- Configuration constant WIRESHARK_BRIDGE_PACKET_HEADER_SIZE from the source. -/
def WIRESHARK_BRIDGE_PACKET_HEADER_SIZE : Nat := 17

/-- Configuration constant WIRESHARK_BRIDGE_MAX_DATAGRAM_SIZE from the source. -/
def WIRESHARK_BRIDGE_MAX_DATAGRAM_SIZE : Nat := 65507

/-- Packet direction: WIRESHARK_BRIDGE_DIRECTION_RX = 0, WIRESHARK_BRIDGE_DIRECTION_TX = 1. -/
inductive Direction where
  | RX : Direction
  | TX : Direction
deriving DecidableEq

/-- Byte value of a direction, as written into the wire header (u8). -/
def Direction.toByte : Direction → Nat
  | .RX => 0
  | .TX => 1

/-- wireshark_bridge_packet_t: one queued capture record.  `packet_data` is
the owned copy of the payload bytes; its length is the C `packet_length`.
`ts_sec`/`ts_usec` are the integer parts the encoder extracts from the f64. -/
structure Packet where
  sw_if_index : Nat
  packet_data : List Nat
  ts_sec : Nat
  ts_usec : Nat
  direction : Direction
deriving DecidableEq

/-- wireshark_bridge_interface_t: registry entry with per-interface counters. -/
structure Iface where
  sw_if_index : Nat
  is_enabled : Bool
  packets_sent_rx : Nat
  bytes_sent_rx : Nat
  packets_sent_tx : Nat
  bytes_sent_tx : Nat
deriving DecidableEq

/-- Contents of the `bridge_addr` union: zeroed at init, then either a
sockaddr_in (port plus the 32-bit address produced by inet_pton) or a
sockaddr_un (the socket path). -/
inductive BridgeAddr where
  | unset : BridgeAddr
  | inet (port : Int) (addr : Nat) : BridgeAddr
  | unix (path : List Char) : BridgeAddr
deriving DecidableEq

/-- Combined global state: wireshark_bridge_main_t plus wireshark_bridge_queue
(both are process-wide globals in the source). -/
structure WBState where
  interfaces : List Iface
  bridge_socket : Int
  bridge_addr : BridgeAddr
  bridge_connected : Bool
  use_unix_socket : Bool
  socket_path : List Char
  sender_thread_running : Bool
  queue_packets : List Packet
  should_stop : Bool
  queue_overflows : Nat
deriving DecidableEq

/-- State established by wireshark_bridge_init. -/
def initialState : WBState :=
  { interfaces := []
    bridge_socket := -1
    bridge_addr := .unset
    bridge_connected := false
    use_unix_socket := false
    socket_path := []
    sender_thread_running := false
    queue_packets := []
    should_stop := false
    queue_overflows := 0 }

/-- wireshark_bridge_find_interface: hash lookup by sw_if_index, modelled as
a list search (ids are unique, inserted once each). -/
def findInterface : List Iface → Nat → Option Iface
  | [], _ => none
  | w :: ws, sw => if w.sw_if_index = sw then some w else findInterface ws sw

/-- Setting is_enabled = 1 on the entry found for `sw` (via the pointer the
source obtains from find). -/
def setEnabledFirst : List Iface → Nat → List Iface
  | [], _ => []
  | w :: ws, sw =>
    if w.sw_if_index = sw then { w with is_enabled := true } :: ws
    else w :: setEnabledFirst ws sw

/-- The find-or-add-then-enable tail present in both enable handlers:
wireshark_bridge_find_interface, wireshark_bridge_add_interface (appends a
zero-initialized entry), then wb_if->is_enabled = 1. -/
def enableInterface (ifs : List Iface) (sw : Nat) : List Iface :=
  match findInterface ifs sw with
  | some _ => setEnabledFirst ifs sw
  | none =>
    ifs ++ [{ sw_if_index := sw, is_enabled := true, packets_sent_rx := 0,
              bytes_sent_rx := 0, packets_sent_tx := 0, bytes_sent_tx := 0 }]

/-- wireshark_bridge_send_packet: the fast-path capture entry point.
Early-returns if the bridge is not connected or the interface is unknown or
disabled; drops and counts on queue overflow; otherwise appends a copy. -/
def wireshark_bridge_send_packet (st : WBState) (sw : Nat) (data : List Nat)
    (sec usec : Nat) (dir : Direction) : WBState :=
  if st.bridge_connected = false then st
  else
    match findInterface st.interfaces sw with
    | none => st
    | some wbi =>
      if wbi.is_enabled = false then st
      else if WIRESHARK_BRIDGE_MAX_QUEUE_SIZE ≤ st.queue_packets.length then
        { st with queue_overflows := st.queue_overflows + 1 }
      else
        { st with queue_packets :=
            st.queue_packets ++ [⟨sw, data, sec, usec, dir⟩] }

/-- Big-endian serialization of a u32 as written byte by byte by
wireshark_bridge_send_packets: (x >> 24) & 0xFF, (x >> 16) & 0xFF,
(x >> 8) & 0xFF, x & 0xFF. -/
def be32 (x : Nat) : List Nat :=
  [(x >>> 24) &&& 255, (x >>> 16) &&& 255, (x >>> 8) &&& 255, x &&& 255]

/-- Bytes appended to the batch buffer for one record: the 17-byte header
(interface index, timestamp seconds, timestamp microseconds, packet length,
direction) followed by the payload copy. -/
def encodeRecord (p : Packet) : List Nat :=
  be32 p.sw_if_index ++ be32 p.ts_sec ++ be32 p.ts_usec ++
    be32 p.packet_data.length ++ [p.direction.toByte] ++ p.packet_data

/-- Counter update block of wireshark_bridge_send_packets, applied through
the pointer to the entry found for the record's interface. -/
def bumpCounters : List Iface → Nat → Direction → Nat → List Iface
  | [], _, _, _ => []
  | w :: ws, sw, dir, len =>
    if w.sw_if_index = sw then
      (match dir with
       | .RX => { w with packets_sent_rx := w.packets_sent_rx + 1,
                         bytes_sent_rx := w.bytes_sent_rx + len }
       | .TX => { w with packets_sent_tx := w.packets_sent_tx + 1,
                         bytes_sent_tx := w.bytes_sent_tx + len }) :: ws
    else w :: bumpCounters ws sw dir len

/-- Loop state of one wireshark_bridge_send_packets pass: the global state,
the batch buffer contents (buffer_offset is its length), the datagrams
handed to sendto so far, and the index of the next sendto attempt (used to
query the send-outcome oracle). -/
structure BatchAcc where
  st : WBState
  buffer : List Nat
  sent : List (List Nat)
  sendIdx : Nat

/-- Flush block `if (buffer_offset > 0 && wbm->bridge_connected) sendto(...)`:
the buffer is handed to sendto; on send failure the socket is closed and
bridge_connected cleared.  The buffer itself is not reset here (the mid-loop
caller resets it, the end-of-loop caller does not). -/
def doSend (oracle : Nat → Bool) (a : BatchAcc) : BatchAcc :=
  if 0 < a.buffer.length ∧ a.st.bridge_connected = true then
    { a with
      st := if oracle a.sendIdx then a.st
            else { a.st with bridge_connected := false },
      sent := a.sent ++ [a.buffer],
      sendIdx := a.sendIdx + 1 }
  else a

/-- Body of the per-packet loop of wireshark_bridge_send_packets: skip
records of unknown or disabled interfaces; if appending would exceed
WIRESHARK_BRIDGE_MAX_DATAGRAM_SIZE, flush and reset the buffer; then append
header+payload unconditionally and update the interface counters. -/
def processPacket (oracle : Nat → Bool) (a : BatchAcc) (p : Packet) : BatchAcc :=
  match findInterface a.st.interfaces p.sw_if_index with
  | none => a
  | some wbi =>
    if wbi.is_enabled = false then a
    else
      let a1 :=
        if WIRESHARK_BRIDGE_MAX_DATAGRAM_SIZE <
            a.buffer.length + WIRESHARK_BRIDGE_PACKET_HEADER_SIZE + p.packet_data.length then
          let f := doSend oracle a
          { f with buffer := [] }
        else a
      let ifs := bumpCounters a1.st.interfaces p.sw_if_index p.direction p.packet_data.length
      let st2 := { a1.st with interfaces := ifs }
      { a1 with buffer := a1.buffer ++ encodeRecord p, st := st2 }

/-- wireshark_bridge_send_packets: one batch-encoding pass over a drained
packet list, returning the final state and the datagrams handed to sendto. -/
def wireshark_bridge_send_packets (st : WBState) (packets : List Packet)
    (oracle : Nat → Bool) : WBState × List (List Nat) :=
  let a := packets.foldl (processPacket oracle)
    { st := st, buffer := [], sent := [], sendIdx := 0 }
  let b := doSend oracle a
  (b.st, b.sent)

/-- One iteration of the sender thread body after waking with should_stop
unset: atomically drain the queue, then send the drained records if any and
if the bridge is connected. -/
def senderThreadIteration (st : WBState) (oracle : Nat → Bool) :
    WBState × List (List Nat) :=
  let pkts := st.queue_packets
  let st1 := { st with queue_packets := [] }
  if 0 < pkts.length ∧ st1.bridge_connected = true then
    wireshark_bridge_send_packets st1 pkts oracle
  else (st1, [])

/-- Value of the longest leading digit run of `s`, accumulated left to right
(the digit-consuming loop shared by the atoi and inet_pton models). -/
def takeDigitsVal : List Char → Nat → Nat
  | c :: cs, acc => if c.isDigit then takeDigitsVal cs (acc * 10 + (c.toNat - 48)) else acc
  | [], acc => acc

/-- Model of C `atoi` on the port substring: optional sign followed by the
longest digit run (leading whitespace, which the callers never produce, is
not modelled). -/
def atoiModel (s : List Char) : Int :=
  match s with
  | '-' :: rest => - (takeDigitsVal rest 0 : Int)
  | '+' :: rest => (takeDigitsVal rest 0 : Int)
  | _ => (takeDigitsVal s 0 : Int)

/-- Model of `strchr (s, ':')`: split at the first colon, or none. -/
def splitAtColon : List Char → Option (List Char × List Char)
  | [] => none
  | c :: cs =>
    if c = ':' then some ([], cs)
    else match splitAtColon cs with
      | none => none
      | some (a, b) => some (c :: a, b)

/-- Split on every dot (used by the inet_pton model). -/
def splitOnDot : List Char → List (List Char)
  | [] => [[]]
  | c :: cs =>
    let r := splitOnDot cs
    if c = '.' then [] :: r
    else match r with
      | [] => [[c]]
      | h :: t => (c :: h) :: t

/-- Validity of one dotted-decimal component under inet_pton(AF_INET):
nonempty, at most 3 digits, value at most 255, and no redundant leading
zero (glibc's inet_pton4 rejects a digit following a leading 0). -/
def validOctet (s : List Char) : Bool :=
  !s.isEmpty && s.length ≤ 3 && s.all Char.isDigit &&
    takeDigitsVal s 0 ≤ 255 && (s.length = 1 || s.head? ≠ some '0')

/-- Model of `inet_pton (AF_INET, s, ...)`: four valid dotted-decimal
components, assembled into the 32-bit address value. -/
def parseIPv4 (s : List Char) : Option Nat :=
  match splitOnDot s with
  | [a, b, c, d] =>
    if validOctet a && validOctet b && validOctet c && validOctet d then
      some ((takeDigitsVal a 0) <<< 24 + (takeDigitsVal b 0) <<< 16 +
            (takeDigitsVal c 0) <<< 8 + takeDigitsVal d 0)
    else none
  | _ => none

/-- Return values of the binary-API enable handler (the VNET_API_ERROR_*
codes it assigns; their numeric values live in a header outside this
repository, so they are kept symbolic). -/
inductive ApiRv where
  | ok : ApiRv
  | invalid_value : ApiRv
  | syscall_error_1 : ApiRv
  | syscall_error_3 : ApiRv
  | no_such_entry : ApiRv
deriving DecidableEq

/-- vl_api_wireshark_bridge_enable_t_handler.  Mirrors the source's order of
mutations: the socket-type flag is set before any validation; the path
length / colon / port / inet_pton checks early-return with INVALID_VALUE;
socket setup and the sender-thread start (unix branch only) happen only when
not already connected; the queue (including queue_overflows) is reset when
the thread is started; finally the interface is registered and enabled.
socket() and pthread_create are modelled as succeeding; a newly created
socket descriptor is modelled as 3. -/
def vl_api_wireshark_bridge_enable (st : WBState) (sw : Nat) (addr : List Char) :
    WBState × ApiRv :=
  if addr.head? = some '/' then
    let st := { st with use_unix_socket := true }
    if 108 ≤ addr.length then (st, .invalid_value)
    else
      let st := { st with socket_path := addr }
      if st.bridge_connected = true then
        ({ st with interfaces := enableInterface st.interfaces sw }, .ok)
      else
        let st := { st with bridge_socket := 3, bridge_addr := .unix addr,
                            bridge_connected := true }
        if st.sender_thread_running = true then
          ({ st with interfaces := enableInterface st.interfaces sw }, .ok)
        else
          let st := { st with queue_packets := [], should_stop := false,
                              queue_overflows := 0, sender_thread_running := true }
          ({ st with interfaces := enableInterface st.interfaces sw }, .ok)
  else
    let st := { st with use_unix_socket := false }
    match splitAtColon addr with
    | none => (st, .invalid_value)
    | some (ip, portStr) =>
      let port := atoiModel portStr
      if port ≤ 0 ∨ 65535 < port then (st, .invalid_value)
      else if st.bridge_connected = true then
        ({ st with interfaces := enableInterface st.interfaces sw }, .ok)
      else
        let st := { st with bridge_socket := 3, bridge_connected := true,
                            use_unix_socket := false }
        match parseIPv4 ip with
        | none =>
          ({ st with bridge_addr := .inet port 0 }, .invalid_value)
        | some a =>
          let st := { st with bridge_addr := .inet port a }
          ({ st with interfaces := enableInterface st.interfaces sw }, .ok)

/-- First-match disable loop of the binary-API disable handler (linear scan,
break after clearing is_enabled of the first entry with the given id). -/
def markDisabledFirst : List Iface → Nat → List Iface
  | [], _ => []
  | w :: ws, sw =>
    if w.sw_if_index = sw then { w with is_enabled := false } :: ws
    else w :: markDisabledFirst ws sw

/-- vl_api_wireshark_bridge_disable_t_handler: clears is_enabled of the
matching entry if any, then, if every registered interface is disabled while
the bridge is connected, stops (joins) the sender thread and closes the
socket.  rv is the C int retval, which the handler never sets to nonzero. -/
def vl_api_wireshark_bridge_disable (st : WBState) (sw : Nat) : WBState × Int :=
  let st := { st with interfaces := markDisabledFirst st.interfaces sw }
  let all_disabled := st.interfaces.all (fun w => w.is_enabled = false)
  if all_disabled && st.bridge_connected then
    let st :=
      if st.sender_thread_running = true then
        { st with should_stop := true, sender_thread_running := false }
      else st
    ({ st with bridge_connected := false }, 0)
  else (st, 0)

/-- wireshark_bridge_enable_command_fn (CLI).  Unlike the API handler it
replaces the socket and peer address unconditionally, resets bridge
connection state on an inet_pton failure, and starts the sender thread
(resetting the queue) in both address branches.  The Bool result is true
when the command early-returns with an error. -/
def wireshark_bridge_enable_command (st : WBState) (sw : Nat) (addr : List Char) :
    WBState × Bool :=
  if addr.head? = some '/' then
    let st := { st with use_unix_socket := true }
    if 108 ≤ addr.length then (st, true)
    else
      let st := { st with socket_path := addr, bridge_socket := 3,
                          bridge_addr := .unix addr, bridge_connected := true }
      if st.sender_thread_running = true then
        ({ st with interfaces := enableInterface st.interfaces sw }, false)
      else
        let st := { st with queue_packets := [], should_stop := false,
                            queue_overflows := 0, sender_thread_running := true }
        ({ st with interfaces := enableInterface st.interfaces sw }, false)
  else
    let st := { st with use_unix_socket := false }
    match splitAtColon addr with
    | none => (st, true)
    | some (ip, portStr) =>
      let port := atoiModel portStr
      if port ≤ 0 ∨ 65535 < port then (st, true)
      else
        let st := { st with bridge_socket := 3, bridge_connected := true,
                            use_unix_socket := false }
        match parseIPv4 ip with
        | none =>
          ({ st with bridge_addr := .inet port 0, bridge_connected := false }, true)
        | some a =>
          let st := { st with bridge_addr := .inet port a }
          let st :=
            if st.sender_thread_running = true then st
            else { st with queue_packets := [], should_stop := false,
                           queue_overflows := 0, sender_thread_running := true }
          ({ st with interfaces := enableInterface st.interfaces sw }, false)

/-- wireshark_bridge_disable_command_fn (CLI): clears is_enabled of the
matching entry; reports an error when the interface is unknown; never stops
the sender thread or closes the socket. -/
def wireshark_bridge_disable_command (st : WBState) (sw : Nat) : WBState × Bool :=
  match findInterface st.interfaces sw with
  | none => (st, true)
  | some _ => ({ st with interfaces := markDisabledFirst st.interfaces sw }, false)

/-- wireshark_bridge_exit: stop and join the sender thread, close the
socket, free the registry. -/
def wireshark_bridge_exit (st : WBState) : WBState :=
  let st :=
    if st.sender_thread_running = true then
      { st with should_stop := true, sender_thread_running := false }
    else st
  let st :=
    if 0 < st.bridge_socket then
      { st with bridge_socket := -1, bridge_connected := false }
    else st
  { st with interfaces := [] }

/-! Theorems.  `bytesToNat` is the spec-side big-endian reassembly used to
state what the wire bytes mean (a conforming receiver's view). -/

/-- Big-endian value of a byte sequence, most significant byte first. -/
def bytesToNat (bs : List Nat) : Nat := bs.foldl (fun acc b => acc * 256 + b) 0

theorem and255_eq_mod (x : Nat) : x &&& 255 = x % 256 := by
  have h : (255 : Nat) = 2 ^ 8 - 1 := by norm_num
  rw [h, Nat.and_pow_two_sub_one_eq_mod]

theorem shr_and255_eq (x k : Nat) : (x >>> k) &&& 255 = x / 2 ^ k % 256 := by
  rw [and255_eq_mod, Nat.shiftRight_eq_div_pow]

theorem shr_and255_lt (x k : Nat) : (x >>> k) &&& 255 < 256 := by
  rw [shr_and255_eq]; exact Nat.mod_lt _ (by norm_num)

theorem and255_lt (x : Nat) : x &&& 255 < 256 := by
  rw [and255_eq_mod]; exact Nat.mod_lt _ (by norm_num)

theorem bytesToNat_be32 (x : Nat) : bytesToNat (be32 x) = x % 2 ^ 32 := by
  simp only [bytesToNat, be32, List.foldl, shr_and255_eq, and255_eq_mod]
  omega

/-- Claim C2 (confirmed): every record placed into an outgoing batch is
emitted as exactly 17 header bytes — big-endian interface id, timestamp
seconds, timestamp microseconds, payload length, then one direction byte
(0 = RX, 1 = TX) — immediately followed by exactly the payload bytes. -/
theorem c2_frame_format (p : Packet) :
    (encodeRecord p).length = 17 + p.packet_data.length ∧
    bytesToNat ((encodeRecord p).take 4) = p.sw_if_index % 2 ^ 32 ∧
    bytesToNat (((encodeRecord p).drop 4).take 4) = p.ts_sec % 2 ^ 32 ∧
    bytesToNat (((encodeRecord p).drop 8).take 4) = p.ts_usec % 2 ^ 32 ∧
    bytesToNat (((encodeRecord p).drop 12).take 4) = p.packet_data.length % 2 ^ 32 ∧
    (encodeRecord p).drop 16 = p.direction.toByte :: p.packet_data ∧
    Direction.toByte .RX = 0 ∧ Direction.toByte .TX = 1 ∧
    (∀ b ∈ (encodeRecord p).take 17, b < 256) := by
  refine ⟨?_, ?_, ?_, ?_, ?_, rfl, rfl, rfl, ?_⟩
  · simp only [encodeRecord, be32, List.length_append, List.length_cons,
      List.length_nil, List.length_singleton]
  · show bytesToNat (be32 p.sw_if_index) = _
    exact bytesToNat_be32 _
  · show bytesToNat (be32 p.ts_sec) = _
    exact bytesToNat_be32 _
  · show bytesToNat (be32 p.ts_usec) = _
    exact bytesToNat_be32 _
  · show bytesToNat (be32 p.packet_data.length) = _
    exact bytesToNat_be32 _
  · have hdir : p.direction.toByte < 256 := by
      cases p.direction <;> simp [Direction.toByte]
    show ∀ b ∈ [(p.sw_if_index >>> 24) &&& 255, (p.sw_if_index >>> 16) &&& 255,
      (p.sw_if_index >>> 8) &&& 255, p.sw_if_index &&& 255,
      (p.ts_sec >>> 24) &&& 255, (p.ts_sec >>> 16) &&& 255,
      (p.ts_sec >>> 8) &&& 255, p.ts_sec &&& 255,
      (p.ts_usec >>> 24) &&& 255, (p.ts_usec >>> 16) &&& 255,
      (p.ts_usec >>> 8) &&& 255, p.ts_usec &&& 255,
      (p.packet_data.length >>> 24) &&& 255, (p.packet_data.length >>> 16) &&& 255,
      (p.packet_data.length >>> 8) &&& 255, p.packet_data.length &&& 255,
      p.direction.toByte], b < 256
    intro b hb
    simp only [List.mem_cons, List.not_mem_nil, or_false] at hb
    rcases hb with rfl|rfl|rfl|rfl|rfl|rfl|rfl|rfl|rfl|rfl|rfl|rfl|rfl|rfl|rfl|rfl|rfl
    all_goals first
      | exact shr_and255_lt _ _
      | exact and255_lt _
      | exact hdir

/-- One capture call with the fields of record `p` (the caller-side
arguments of wireshark_bridge_send_packet; the queued copy equals `p`). -/
def captureStep (st : WBState) (p : Packet) : WBState :=
  wireshark_bridge_send_packet st p.sw_if_index p.packet_data p.ts_sec p.ts_usec p.direction

/-- A sequence of capture attempts: attempt `k` enqueues record `mk k`. -/
def captureIter (mk : Nat → Packet) (st : WBState) : Nat → WBState
  | 0 => st
  | n + 1 => captureStep (captureIter mk st n) (mk n)

theorem captureStep_preserves (st : WBState) (p : Packet) :
    (captureStep st p).interfaces = st.interfaces ∧
    (captureStep st p).bridge_connected = st.bridge_connected ∧
    (captureStep st p).sender_thread_running = st.sender_thread_running ∧
    (captureStep st p).bridge_socket = st.bridge_socket ∧
    (captureStep st p).bridge_addr = st.bridge_addr ∧
    (captureStep st p).use_unix_socket = st.use_unix_socket ∧
    (captureStep st p).socket_path = st.socket_path ∧
    (captureStep st p).should_stop = st.should_stop := by
  unfold captureStep wireshark_bridge_send_packet
  repeat' split
  all_goals exact ⟨rfl, rfl, rfl, rfl, rfl, rfl, rfl, rfl⟩

theorem captureIter_preserves (mk : Nat → Packet) (st : WBState) (n : Nat) :
    (captureIter mk st n).interfaces = st.interfaces ∧
    (captureIter mk st n).bridge_connected = st.bridge_connected ∧
    (captureIter mk st n).sender_thread_running = st.sender_thread_running ∧
    (captureIter mk st n).bridge_socket = st.bridge_socket ∧
    (captureIter mk st n).bridge_addr = st.bridge_addr ∧
    (captureIter mk st n).use_unix_socket = st.use_unix_socket ∧
    (captureIter mk st n).socket_path = st.socket_path ∧
    (captureIter mk st n).should_stop = st.should_stop := by
  induction n with
  | zero => exact ⟨rfl, rfl, rfl, rfl, rfl, rfl, rfl, rfl⟩
  | succ n ih =>
    have h := captureStep_preserves (captureIter mk st n) (mk n)
    exact ⟨h.1.trans ih.1, h.2.1.trans ih.2.1, h.2.2.1.trans ih.2.2.1,
      h.2.2.2.1.trans ih.2.2.2.1, h.2.2.2.2.1.trans ih.2.2.2.2.1,
      h.2.2.2.2.2.1.trans ih.2.2.2.2.2.1, h.2.2.2.2.2.2.1.trans ih.2.2.2.2.2.2.1,
      h.2.2.2.2.2.2.2.trans ih.2.2.2.2.2.2.2⟩

theorem captureIter_queue_spec (st : WBState) (mk : Nat → Packet)
    (hq : st.queue_packets = []) (hc : st.bridge_connected = true)
    (he : ∀ k, ∃ w, findInterface st.interfaces (mk k).sw_if_index = some w ∧
      w.is_enabled = true) (n : Nat) :
    (captureIter mk st n).queue_packets
      = (List.range (min n WIRESHARK_BRIDGE_MAX_QUEUE_SIZE)).map mk ∧
    (captureIter mk st n).queue_overflows
      = st.queue_overflows + (n - WIRESHARK_BRIDGE_MAX_QUEUE_SIZE) := by
  induction n with
  | zero => simpa using ⟨hq, rfl⟩
  | succ n ih =>
    have hpres := captureIter_preserves mk st n
    obtain ⟨w, hfw, hen⟩ := he n
    have hc' : (captureIter mk st n).bridge_connected = true := hpres.2.1.trans hc
    have hfind : findInterface (captureIter mk st n).interfaces (mk n).sw_if_index
        = some w := by rw [hpres.1]; exact hfw
    have hlen : (captureIter mk st n).queue_packets.length
        = min n WIRESHARK_BRIDGE_MAX_QUEUE_SIZE := by
      rw [ih.1, List.length_map, List.length_range]
    show (captureStep (captureIter mk st n) (mk n)).queue_packets = _ ∧
         (captureStep (captureIter mk st n) (mk n)).queue_overflows = _
    unfold captureStep wireshark_bridge_send_packet
    rw [hc', hfind]
    simp only [hen, Bool.true_eq_false, if_false, reduceIte]
    by_cases hnB : WIRESHARK_BRIDGE_MAX_QUEUE_SIZE ≤ n
    · have hcond : WIRESHARK_BRIDGE_MAX_QUEUE_SIZE ≤
          (captureIter mk st n).queue_packets.length := by
        rw [hlen]; omega
      rw [if_pos hcond]
      constructor
      · show (captureIter mk st n).queue_packets = _
        have h1 : min n WIRESHARK_BRIDGE_MAX_QUEUE_SIZE
            = WIRESHARK_BRIDGE_MAX_QUEUE_SIZE := by omega
        have h2 : min (n + 1) WIRESHARK_BRIDGE_MAX_QUEUE_SIZE
            = WIRESHARK_BRIDGE_MAX_QUEUE_SIZE := by omega
        rw [ih.1, h1, h2]
      · show (captureIter mk st n).queue_overflows + 1 = _
        rw [ih.2]
        unfold WIRESHARK_BRIDGE_MAX_QUEUE_SIZE at hnB ⊢
        omega
    · have hcond : ¬ WIRESHARK_BRIDGE_MAX_QUEUE_SIZE ≤
          (captureIter mk st n).queue_packets.length := by
        rw [hlen]; omega
      rw [if_neg hcond]
      constructor
      · show (captureIter mk st n).queue_packets ++ [mk n] = _
        rw [ih.1]
        have h1 : min n WIRESHARK_BRIDGE_MAX_QUEUE_SIZE = n := by omega
        have h2 : min (n + 1) WIRESHARK_BRIDGE_MAX_QUEUE_SIZE = n + 1 := by omega
        rw [h1, h2, List.range_succ, List.map_append]
        rfl
      · show (captureIter mk st n).queue_overflows = _
        rw [ih.2]
        unfold WIRESHARK_BRIDGE_MAX_QUEUE_SIZE at hnB ⊢
        omega

/-- Claim C1 (confirmed): starting from an empty queue with the bridge
connected and the records' interface enabled, a run of N ≥ 10000 capture
attempts appends exactly the first 10000 records in order, rejects every
later attempt, ends with overflow counter N - 10000, and the queue length
never exceeds 10000 at any point of the run. -/
theorem c1_bounded_queue (st : WBState) (mk : Nat → Packet) (N : Nat)
    (hq : st.queue_packets = []) (ho : st.queue_overflows = 0)
    (hc : st.bridge_connected = true)
    (he : ∀ k, ∃ w, findInterface st.interfaces (mk k).sw_if_index = some w ∧
      w.is_enabled = true)
    (hN : WIRESHARK_BRIDGE_MAX_QUEUE_SIZE ≤ N) :
    (captureIter mk st N).queue_packets
      = (List.range WIRESHARK_BRIDGE_MAX_QUEUE_SIZE).map mk ∧
    (captureIter mk st N).queue_overflows = N - WIRESHARK_BRIDGE_MAX_QUEUE_SIZE ∧
    ∀ k, (captureIter mk st k).queue_packets.length ≤ WIRESHARK_BRIDGE_MAX_QUEUE_SIZE := by
  have h := captureIter_queue_spec st mk hq hc he N
  refine ⟨?_, ?_, ?_⟩
  · have hmin : min N WIRESHARK_BRIDGE_MAX_QUEUE_SIZE
        = WIRESHARK_BRIDGE_MAX_QUEUE_SIZE := by omega
    rw [h.1, hmin]
  · rw [h.2, ho, Nat.zero_add]
  · intro k
    have hk := captureIter_queue_spec st mk hq hc he k
    rw [hk.1, List.length_map, List.length_range]
    omega

/-- Concrete initial state for exercising claim C1: one enabled interface 5,
bridge connected, sender thread running, empty queue. -/
def c1State : WBState :=
  { initialState with
    interfaces := [⟨5, true, 0, 0, 0, 0⟩]
    bridge_socket := 3
    bridge_addr := .unix "/tmp/wb".toList
    use_unix_socket := true
    socket_path := "/tmp/wb".toList
    bridge_connected := true
    sender_thread_running := true }

/-- Concrete capture record on interface 5 for the C1 witness. -/
def c1Packet : Packet := ⟨5, [171, 205], 12, 34, .RX⟩

theorem c1_bounded_queue_witness :
    (captureIter (fun _ => c1Packet) c1State 10001).queue_packets
      = (List.range WIRESHARK_BRIDGE_MAX_QUEUE_SIZE).map (fun _ => c1Packet) ∧
    (captureIter (fun _ => c1Packet) c1State 10001).queue_overflows = 1 := by
  have he : ∀ k : Nat, ∃ w, findInterface c1State.interfaces
      ((fun _ => c1Packet) k).sw_if_index = some w ∧ w.is_enabled = true := by
    intro k
    exact ⟨⟨5, true, 0, 0, 0, 0⟩, rfl, rfl⟩
  have h := c1_bounded_queue c1State (fun _ => c1Packet) 10001 rfl rfl rfl he (by decide)
  refine ⟨h.1, ?_⟩
  rw [h.2.1]
  decide

/-- Concrete state for claim C7: interface 5 enabled but bridge not
connected (overflow counter zero). -/
def c7State : WBState :=
  { initialState with interfaces := [⟨5, true, 0, 0, 0, 0⟩] }

/-- Claim C7 counterexample: an enqueue attempt while the subsystem is not
connected leaves the overflow counter at 0 — it is not incremented as the
claim states. -/
theorem c7_counterexample :
    (wireshark_bridge_send_packet c7State 5 [1, 2] 0 0 .RX).queue_overflows = 0 ∧
    c7State.queue_overflows = 0 ∧ c7State.bridge_connected = false := by
  decide

/-- Claim C7 (amended): an enqueue attempt made while the bridge is not
connected is rejected without blocking and without any state change at all —
in particular the overflow counter is not incremented. -/
theorem c7_disconnected_drop (st : WBState) (sw : Nat) (data : List Nat)
    (sec usec : Nat) (dir : Direction) (h : st.bridge_connected = false) :
    wireshark_bridge_send_packet st sw data sec usec dir = st := by
  unfold wireshark_bridge_send_packet
  rw [h]
  simp

theorem c7_disconnected_drop_witness :
    wireshark_bridge_send_packet c7State 6 [9] 1 2 .TX = c7State :=
  c7_disconnected_drop c7State 6 [9] 1 2 .TX rfl

theorem doSend_st_fields (o : Nat → Bool) (a : BatchAcc) :
    (doSend o a).st.interfaces = a.st.interfaces ∧
    (doSend o a).st.queue_packets = a.st.queue_packets ∧
    (doSend o a).st.queue_overflows = a.st.queue_overflows := by
  unfold doSend
  split
  · split <;> exact ⟨rfl, rfl, rfl⟩
  · exact ⟨rfl, rfl, rfl⟩

/-- Spec-side counter transformer: the counters a batch pass produces if
every enabled-interface record updates them exactly once at the moment it is
placed into the buffer, regardless of any send outcome. -/
def countersAfterPlacement (ifs : List Iface) : List Packet → List Iface
  | [] => ifs
  | p :: ps =>
    match findInterface ifs p.sw_if_index with
    | none => countersAfterPlacement ifs ps
    | some w =>
      if w.is_enabled = false then countersAfterPlacement ifs ps
      else countersAfterPlacement
        (bumpCounters ifs p.sw_if_index p.direction p.packet_data.length) ps

theorem processPacket_interfaces (o : Nat → Bool) (a : BatchAcc) (p : Packet) :
    (processPacket o a p).st.interfaces =
      (match findInterface a.st.interfaces p.sw_if_index with
       | none => a.st.interfaces
       | some w =>
         if w.is_enabled = false then a.st.interfaces
         else bumpCounters a.st.interfaces p.sw_if_index p.direction p.packet_data.length) := by
  unfold processPacket
  cases hf : findInterface a.st.interfaces p.sw_if_index with
  | none => rfl
  | some w =>
    by_cases hw : w.is_enabled = false
    · simp [hw]
    · by_cases hcond : WIRESHARK_BRIDGE_MAX_DATAGRAM_SIZE <
          a.buffer.length + WIRESHARK_BRIDGE_PACKET_HEADER_SIZE + p.packet_data.length
      · simp [hw, hcond, (doSend_st_fields o a).1]
      · simp [hw, hcond]

theorem countersAfterPlacement_cons (ifs : List Iface) (p : Packet) (ps : List Packet) :
    countersAfterPlacement ifs (p :: ps) =
      (match findInterface ifs p.sw_if_index with
       | none => countersAfterPlacement ifs ps
       | some w =>
         if w.is_enabled = false then countersAfterPlacement ifs ps
         else countersAfterPlacement
           (bumpCounters ifs p.sw_if_index p.direction p.packet_data.length) ps) := rfl

theorem foldl_processPacket_interfaces (o : Nat → Bool) (ps : List Packet) :
    ∀ a : BatchAcc, (ps.foldl (processPacket o) a).st.interfaces
      = countersAfterPlacement a.st.interfaces ps := by
  induction ps with
  | nil => intro a; rfl
  | cons p ps ih =>
    intro a
    rw [List.foldl_cons, ih, processPacket_interfaces, countersAfterPlacement_cons]
    cases hf : findInterface a.st.interfaces p.sw_if_index with
    | none => rfl
    | some w =>
      by_cases hw : w.is_enabled = false
      · simp [hw]
      · simp [hw]

/-- Claim C5 (amended): the per-interface counters are updated exactly once
per enabled-interface record, at the moment the record is placed into the
batch buffer — independent of whether the datagram containing it is later
sent, fails to send, or is never attempted (the counters do not depend on
the send-outcome oracle at all). -/
theorem c5_counters_at_placement (st : WBState) (pkts : List Packet)
    (o o2 : Nat → Bool) :
    (wireshark_bridge_send_packets st pkts o).1.interfaces
      = countersAfterPlacement st.interfaces pkts ∧
    (wireshark_bridge_send_packets st pkts o).1.interfaces
      = (wireshark_bridge_send_packets st pkts o2).1.interfaces := by
  have key : ∀ o3 : Nat → Bool, (wireshark_bridge_send_packets st pkts o3).1.interfaces
      = countersAfterPlacement st.interfaces pkts := by
    intro o3
    show (doSend o3 (pkts.foldl (processPacket o3) ⟨st, [], [], 0⟩)).st.interfaces = _
    rw [(doSend_st_fields o3 _).1, foldl_processPacket_interfaces]
  exact ⟨key o, (key o).trans (key o2).symm⟩

/-- Concrete state for the C5 counterexample: one enabled interface,
bridge connected. -/
def c5State : WBState :=
  { initialState with
    interfaces := [⟨5, true, 0, 0, 0, 0⟩]
    bridge_socket := 3
    bridge_connected := true
    sender_thread_running := true }

/-- Concrete record for the C5 counterexample. -/
def c5Packet : Packet := ⟨5, [1, 2, 3], 7, 8, .RX⟩

/-- Claim C5 counterexample: with a send-outcome oracle that fails the only
sendto attempt, the lone record's datagram send fails (the transport marks
itself disconnected) — yet packets_sent_rx/bytes_sent_rx were already
incremented for that record, contradicting the claim that counters only
move after the record has left the transport without a send error. -/
theorem c5_counterexample :
    (wireshark_bridge_send_packets c5State [c5Packet] (fun _ => false)).1.interfaces
      = [⟨5, true, 1, 3, 0, 0⟩] ∧
    (wireshark_bridge_send_packets c5State [c5Packet] (fun _ => false)).1.bridge_connected
      = false ∧
    (wireshark_bridge_send_packets c5State [c5Packet] (fun _ => false)).2
      = [encodeRecord c5Packet] := by
  decide

/-- Concrete state for claim C3: one enabled interface, bridge connected. -/
def c3State : WBState :=
  { initialState with
    interfaces := [⟨5, true, 0, 0, 0, 0⟩]
    bridge_socket := 3
    bridge_connected := true
    sender_thread_running := true }

/-- Payload of 65500 zero bytes for the C3 failing input. -/
def c3Bytes : List Nat := List.replicate 65500 0

theorem c3Bytes_length : c3Bytes.length = 65500 := List.length_replicate ..

/-- Concrete record for claim C3 whose header+payload (17 + 65500 = 65517
bytes) exceeds WIRESHARK_BRIDGE_MAX_DATAGRAM_SIZE in isolation. -/
def c3Packet : Packet := ⟨5, c3Bytes, 0, 0, .RX⟩

/-- Claim C3 (code bug, evaluated at the failing input): a single record
whose header+payload exceeds the maximum datagram size is still written into
the batch buffer — in the C code this writes 65517 bytes into the
65507-byte heap buffer, 10 bytes out of bounds — and the resulting
65517-byte datagram, larger than the 65507-byte bound, is handed to sendto. -/
theorem c3_bug_oversize_datagram :
    WIRESHARK_BRIDGE_MAX_DATAGRAM_SIZE < (encodeRecord c3Packet).length ∧
    (encodeRecord c3Packet).length = 65517 ∧
    (wireshark_bridge_send_packets c3State [c3Packet] (fun _ => true)).2
      = [encodeRecord c3Packet] := by
  have hplen0 : c3Packet.packet_data.length = 65500 := c3Bytes_length
  have hlen : (encodeRecord c3Packet).length = 65517 := by
    unfold encodeRecord
    simp only [List.length_append, hplen0, be32, List.length_cons, List.length_nil]
  have hstep : processPacket (fun _ => true) ⟨c3State, [], [], 0⟩ c3Packet
      = ⟨{ c3State with interfaces := [⟨5, true, 1, 65500, 0, 0⟩] },
         encodeRecord c3Packet, [], 0⟩ := by
    have hplen : c3Packet.packet_data.length = 65500 := c3Bytes_length
    have hsw : c3Packet.sw_if_index = 5 := rfl
    have hdi : c3Packet.direction = Direction.RX := rfl
    unfold processPacket
    rw [hplen, hsw, hdi]
    simp [c3State, initialState, findInterface, bumpCounters, doSend,
      WIRESHARK_BRIDGE_MAX_DATAGRAM_SIZE, WIRESHARK_BRIDGE_PACKET_HEADER_SIZE]
  have hsend : doSend (fun _ => true)
      ⟨{ c3State with interfaces := [⟨5, true, 1, 65500, 0, 0⟩] },
        encodeRecord c3Packet, [], 0⟩
      = ⟨{ c3State with interfaces := [⟨5, true, 1, 65500, 0, 0⟩] },
         encodeRecord c3Packet, [encodeRecord c3Packet], 1⟩ := by
    unfold doSend
    rw [if_pos ⟨by rw [hlen]; decide, rfl⟩]
    rfl
  have hfull : wireshark_bridge_send_packets c3State [c3Packet] (fun _ => true)
      = ({ c3State with interfaces := [⟨5, true, 1, 65500, 0, 0⟩] },
         [encodeRecord c3Packet]) := by
    show ((doSend (fun _ => true) (List.foldl (processPacket (fun _ => true))
            ⟨c3State, [], [], 0⟩ [c3Packet])).st,
          (doSend (fun _ => true) (List.foldl (processPacket (fun _ => true))
            ⟨c3State, [], [], 0⟩ [c3Packet])).sent) = _
    rw [List.foldl_cons, List.foldl_nil, hstep, hsend]
  exact ⟨by rw [hlen]; decide, hlen, by rw [hfull]⟩

/-- Concrete state for claim C4: one enabled interface 6, bridge connected. -/
def c4State : WBState :=
  { initialState with
    interfaces := [⟨6, true, 0, 0, 0, 0⟩]
    bridge_socket := 3
    bridge_connected := true
    sender_thread_running := true }

/-- Payload of 65491 bytes for the C4 failing input (minimal oversize). -/
def c4Bytes : List Nat := List.replicate 65491 7

theorem c4Bytes_length : c4Bytes.length = 65491 := List.length_replicate ..

/-- Concrete record for claim C4 whose header+payload (17 + 65491 = 65508
bytes) exceeds the maximum datagram size in isolation by one byte. -/
def c4Packet : Packet := ⟨6, c4Bytes, 3, 4, .TX⟩

/-- Claim C4 (code bug, evaluated at the failing input): a record that
exceeds the maximum datagram size in isolation is NOT treated as an encoder
error: it is not dropped (its full frame is placed into a datagram handed to
the transport), it is counted in the ordinary per-interface sent counters,
and no separate drop counter exists anywhere in the state. -/
theorem c4_bug_record_not_dropped :
    WIRESHARK_BRIDGE_MAX_DATAGRAM_SIZE <
      WIRESHARK_BRIDGE_PACKET_HEADER_SIZE + c4Packet.packet_data.length ∧
    (wireshark_bridge_send_packets c4State [c4Packet] (fun _ => true)).2
      = [encodeRecord c4Packet] ∧
    (wireshark_bridge_send_packets c4State [c4Packet] (fun _ => true)).1.interfaces
      = [⟨6, true, 0, 0, 1, 65491⟩] := by
  have hplen0 : c4Packet.packet_data.length = 65491 := c4Bytes_length
  have hlen : (encodeRecord c4Packet).length = 65508 := by
    unfold encodeRecord
    simp only [List.length_append, hplen0, be32, List.length_cons, List.length_nil]
  have hstep : processPacket (fun _ => true) ⟨c4State, [], [], 0⟩ c4Packet
      = ⟨{ c4State with interfaces := [⟨6, true, 0, 0, 1, 65491⟩] },
         encodeRecord c4Packet, [], 0⟩ := by
    have hplen : c4Packet.packet_data.length = 65491 := c4Bytes_length
    have hsw : c4Packet.sw_if_index = 6 := rfl
    have hdi : c4Packet.direction = Direction.TX := rfl
    unfold processPacket
    rw [hplen, hsw, hdi]
    simp [c4State, initialState, findInterface, bumpCounters, doSend,
      WIRESHARK_BRIDGE_MAX_DATAGRAM_SIZE, WIRESHARK_BRIDGE_PACKET_HEADER_SIZE]
  have hsend : doSend (fun _ => true)
      ⟨{ c4State with interfaces := [⟨6, true, 0, 0, 1, 65491⟩] },
        encodeRecord c4Packet, [], 0⟩
      = ⟨{ c4State with interfaces := [⟨6, true, 0, 0, 1, 65491⟩] },
         encodeRecord c4Packet, [encodeRecord c4Packet], 1⟩ := by
    unfold doSend
    rw [if_pos ⟨by rw [hlen]; decide, rfl⟩]
    rfl
  have hfull : wireshark_bridge_send_packets c4State [c4Packet] (fun _ => true)
      = ({ c4State with interfaces := [⟨6, true, 0, 0, 1, 65491⟩] },
         [encodeRecord c4Packet]) := by
    show ((doSend (fun _ => true) (List.foldl (processPacket (fun _ => true))
            ⟨c4State, [], [], 0⟩ [c4Packet])).st,
          (doSend (fun _ => true) (List.foldl (processPacket (fun _ => true))
            ⟨c4State, [], [], 0⟩ [c4Packet])).sent) = _
    rw [List.foldl_cons, List.foldl_nil, hstep, hsend]
  refine ⟨?_, by rw [hfull], by rw [hfull]⟩
  rw [hplen0]
  decide

/-- The endpoint-validation failures of the binary-API enable handler, as
the code checks them: an over-long unix path; no colon in a host:port spec;
a port outside 1..65535; or — only reached when the transport is not already
connected — an IP literal inet_pton rejects. -/
def configInvalid (st : WBState) (addr : List Char) : Prop :=
  (addr.head? = some '/' ∧ 108 ≤ addr.length) ∨
  (addr.head? ≠ some '/' ∧
    (splitAtColon addr = none ∨
     ∃ ip ps, splitAtColon addr = some (ip, ps) ∧
       (atoiModel ps ≤ 0 ∨ 65535 < atoiModel ps ∨
        (st.bridge_connected = false ∧ parseIPv4 ip = none))))

/-- Claim C8 (amended): an enable call with an invalid endpoint spec fails
synchronously with INVALID_VALUE, starts no sender task and registers no
interface — but, contrary to the original claim, state may still be
mutated: the socket-type flag is set before validation, and a failed
inet_pton leaves the connected flag set (see the counterexample). -/
theorem c8_invalid_endpoint (st : WBState) (sw : Nat) (addr : List Char)
    (h : configInvalid st addr) :
    (vl_api_wireshark_bridge_enable st sw addr).2 ≠ ApiRv.ok ∧
    (vl_api_wireshark_bridge_enable st sw addr).1.sender_thread_running
      = st.sender_thread_running ∧
    (vl_api_wireshark_bridge_enable st sw addr).1.interfaces = st.interfaces := by
  have hne : ApiRv.invalid_value ≠ ApiRv.ok := by decide
  unfold vl_api_wireshark_bridge_enable
  rcases h with ⟨hhead, hlen⟩ | ⟨hhead, hrest⟩
  · rw [if_pos hhead, if_pos hlen]
    exact ⟨hne, rfl, rfl⟩
  · rw [if_neg hhead]
    rcases hrest with hsplit | ⟨ip, ps, hsplit, hbad⟩
    · rw [hsplit]
      exact ⟨hne, rfl, rfl⟩
    · rw [hsplit]
      dsimp only
      by_cases hport : atoiModel ps ≤ 0 ∨ 65535 < atoiModel ps
      · rw [if_pos hport]
        exact ⟨hne, rfl, rfl⟩
      · have hcp : st.bridge_connected = false ∧ parseIPv4 ip = none := by
          rcases hbad with h1 | h2 | h3
          · exact absurd (Or.inl h1) hport
          · exact absurd (Or.inr h2) hport
          · exact h3
        have hcond : ¬ (st.bridge_connected = true) := by
          rw [hcp.1]
          decide
        rw [if_neg hport, if_neg hcond, hcp.2]
        exact ⟨hne, rfl, rfl⟩

theorem c8_invalid_endpoint_witness :
    (vl_api_wireshark_bridge_enable initialState 3 ("abc:99999".toList)).2 ≠ ApiRv.ok ∧
    (vl_api_wireshark_bridge_enable initialState 3 ("abc:99999".toList)).1.sender_thread_running
      = initialState.sender_thread_running ∧
    (vl_api_wireshark_bridge_enable initialState 3 ("abc:99999".toList)).1.interfaces
      = initialState.interfaces := by
  have hinv : configInvalid initialState ("abc:99999".toList) :=
    Or.inr ⟨by decide,
      Or.inr ⟨"abc".toList, "99999".toList, by decide, Or.inr (Or.inl (by decide))⟩⟩
  exact c8_invalid_endpoint initialState 3 ("abc:99999".toList) hinv

/-- Claim C8 counterexample: enabling from the disconnected initial state
with "abc:9999" — a valid port but an IP literal inet_pton rejects — fails
with INVALID_VALUE, yet the transport's connected flag is left set to true
(it was set before inet_pton ran and is not rolled back), contradicting
"no state is mutated". -/
theorem c8_counterexample :
    (vl_api_wireshark_bridge_enable initialState 1 ("abc:9999".toList)).2
      = ApiRv.invalid_value ∧
    (vl_api_wireshark_bridge_enable initialState 1 ("abc:9999".toList)).1.bridge_connected
      = true ∧
    initialState.bridge_connected = false := by
  decide

/-- Claim C9 (amended): a successful enable reconfigures the transport only
when it is not already connected.  If the transport is connected, the call
leaves the socket and peer address untouched (and the connection up), even
when the supplied endpoint differs from the configured one; only the
interface registry (and, for unix specs, the stored path string and
socket-type flag) changes. -/
theorem c9_connected_enable_keeps_transport (st : WBState) (sw : Nat)
    (addr : List Char) (hc : st.bridge_connected = true) :
    (vl_api_wireshark_bridge_enable st sw addr).1.bridge_addr = st.bridge_addr ∧
    (vl_api_wireshark_bridge_enable st sw addr).1.bridge_socket = st.bridge_socket ∧
    (vl_api_wireshark_bridge_enable st sw addr).1.bridge_connected = true ∧
    (vl_api_wireshark_bridge_enable st sw addr).1.sender_thread_running
      = st.sender_thread_running := by
  unfold vl_api_wireshark_bridge_enable
  dsimp only
  by_cases h1 : addr.head? = some '/'
  · rw [if_pos h1]
    by_cases h2 : 108 ≤ addr.length
    · rw [if_pos h2]
      exact ⟨rfl, rfl, hc, rfl⟩
    · rw [if_neg h2, if_pos hc]
      exact ⟨rfl, rfl, hc, rfl⟩
  · rw [if_neg h1]
    cases hsp : splitAtColon addr with
    | none =>
      exact ⟨rfl, rfl, hc, rfl⟩
    | some pr =>
      obtain ⟨ip, ps⟩ := pr
      dsimp only
      by_cases hp : atoiModel ps ≤ 0 ∨ 65535 < atoiModel ps
      · rw [if_pos hp]
        exact ⟨rfl, rfl, hc, rfl⟩
      · rw [if_neg hp, if_pos hc]
        exact ⟨rfl, rfl, hc, rfl⟩

/-- Concrete connected state for claim C9: transport configured to the UDP
endpoint 1.2.3.4:9999 (inet_pton value 16909060). -/
def c9State : WBState :=
  { initialState with
    interfaces := [⟨5, true, 0, 0, 0, 0⟩]
    bridge_socket := 3
    bridge_addr := .inet 9999 16909060
    bridge_connected := true
    sender_thread_running := true }

theorem c9_connected_enable_keeps_transport_witness :
    (vl_api_wireshark_bridge_enable c9State 7 ("5.6.7.8:8080".toList)).1.bridge_addr
      = c9State.bridge_addr ∧
    (vl_api_wireshark_bridge_enable c9State 7 ("5.6.7.8:8080".toList)).1.bridge_socket
      = c9State.bridge_socket ∧
    (vl_api_wireshark_bridge_enable c9State 7 ("5.6.7.8:8080".toList)).1.bridge_connected
      = true ∧
    (vl_api_wireshark_bridge_enable c9State 7 ("5.6.7.8:8080".toList)).1.sender_thread_running
      = c9State.sender_thread_running :=
  c9_connected_enable_keeps_transport c9State 7 ("5.6.7.8:8080".toList) rfl

/-- Claim C9 counterexample: with the transport connected to 1.2.3.4:9999,
enabling interface 7 with the different endpoint "5.6.7.8:8080" (which
parses to port 8080, address 84281096) succeeds — yet the peer address is
still 1.2.3.4:9999: the transport was not reconfigured. -/
theorem c9_counterexample :
    (vl_api_wireshark_bridge_enable c9State 7 ("5.6.7.8:8080".toList)).2 = ApiRv.ok ∧
    (vl_api_wireshark_bridge_enable c9State 7 ("5.6.7.8:8080".toList)).1.bridge_addr
      = BridgeAddr.inet 9999 16909060 ∧
    parseIPv4 ("5.6.7.8".toList) = some 84281096 ∧
    atoiModel ("8080".toList) = 8080 ∧
    BridgeAddr.inet 9999 16909060 ≠ BridgeAddr.inet 8080 84281096 := by
  decide

/-- Claim C10 (confirmed): the binary-API disable handler returns retval 0
for every interface id (including never-registered ones), and whenever the
post-disable registry has no enabled interface while the bridge is
connected, the handler stops the sender thread and closes the socket. -/
theorem c10_disable_always_ok (st : WBState) (sw : Nat) :
    (vl_api_wireshark_bridge_disable st sw).2 = 0 ∧
    ((markDisabledFirst st.interfaces sw).all (fun w => w.is_enabled = false) = true →
      st.bridge_connected = true →
      (vl_api_wireshark_bridge_disable st sw).1.sender_thread_running = false ∧
      (vl_api_wireshark_bridge_disable st sw).1.bridge_connected = false) := by
  constructor
  · unfold vl_api_wireshark_bridge_disable
    dsimp only
    repeat' split
    all_goals rfl
  · intro hall hconn
    unfold vl_api_wireshark_bridge_disable
    dsimp only
    rw [hall, hconn]
    by_cases hr : st.sender_thread_running = true
    · rw [hr]
      simp
    · rw [if_neg hr]
      refine ⟨?_, by simp⟩
      simpa using hr

/-- Concrete state for the C10 witness: only interface 5 registered (already
disabled), bridge connected, sender thread running; interface 7 was never
registered, yet disabling it returns success and tears down the transport. -/
def c10State : WBState :=
  { initialState with
    interfaces := [⟨5, false, 2, 100, 3, 200⟩]
    bridge_socket := 3
    bridge_connected := true
    sender_thread_running := true }

theorem c10_disable_always_ok_witness :
    (vl_api_wireshark_bridge_disable c10State 7).2 = 0 ∧
    (vl_api_wireshark_bridge_disable c10State 7).1.sender_thread_running = false ∧
    (vl_api_wireshark_bridge_disable c10State 7).1.bridge_connected = false := by
  have h := c10_disable_always_ok c10State 7
  exact ⟨h.1, (h.2 (by decide) rfl).1, (h.2 (by decide) rfl).2⟩

theorem processPacket_overflows (o : Nat → Bool) (a : BatchAcc) (p : Packet) :
    (processPacket o a p).st.queue_overflows = a.st.queue_overflows := by
  unfold processPacket
  cases hf : findInterface a.st.interfaces p.sw_if_index with
  | none => rfl
  | some w =>
    by_cases hw : w.is_enabled = false
    · simp [hw]
    · by_cases hcond : WIRESHARK_BRIDGE_MAX_DATAGRAM_SIZE <
          a.buffer.length + WIRESHARK_BRIDGE_PACKET_HEADER_SIZE + p.packet_data.length
      · simp [hw, hcond, (doSend_st_fields o a).2.2]
      · simp [hw, hcond]

theorem foldl_processPacket_overflows (o : Nat → Bool) (ps : List Packet) :
    ∀ a : BatchAcc, (ps.foldl (processPacket o) a).st.queue_overflows
      = a.st.queue_overflows := by
  induction ps with
  | nil => intro a; rfl
  | cons p ps ih =>
    intro a
    rw [List.foldl_cons, ih, processPacket_overflows]

theorem send_packets_overflows (st : WBState) (pkts : List Packet) (o : Nat → Bool) :
    (wireshark_bridge_send_packets st pkts o).1.queue_overflows
      = st.queue_overflows := by
  show (doSend o (pkts.foldl (processPacket o) ⟨st, [], [], 0⟩)).st.queue_overflows = _
  rw [(doSend_st_fields o _).2.2, foldl_processPacket_overflows]

/-- Claim C6 (amended): across every modelled operation — capture, batch
send, sender-thread drain iteration, disable (API and CLI), plugin exit —
the overflow counter never decreases; the only exception is enable (API or
CLI), which either leaves the counter unchanged or, when the sender thread
is not running and is (re)started, resets it to zero together with the rest
of the queue state. -/
theorem c6_overflow_monotone_except_thread_start :
    (∀ st sw data sec usec dir, st.queue_overflows ≤
      (wireshark_bridge_send_packet st sw data sec usec dir).queue_overflows) ∧
    (∀ st pkts o, (wireshark_bridge_send_packets st pkts o).1.queue_overflows
      = st.queue_overflows) ∧
    (∀ st o, (senderThreadIteration st o).1.queue_overflows = st.queue_overflows) ∧
    (∀ st sw, (vl_api_wireshark_bridge_disable st sw).1.queue_overflows
      = st.queue_overflows) ∧
    (∀ st sw, (wireshark_bridge_disable_command st sw).1.queue_overflows
      = st.queue_overflows) ∧
    (∀ st, (wireshark_bridge_exit st).queue_overflows = st.queue_overflows) ∧
    (∀ st sw addr,
      (vl_api_wireshark_bridge_enable st sw addr).1.queue_overflows = st.queue_overflows ∨
      (st.sender_thread_running = false ∧
        (vl_api_wireshark_bridge_enable st sw addr).1.queue_overflows = 0)) ∧
    (∀ st sw addr,
      (wireshark_bridge_enable_command st sw addr).1.queue_overflows = st.queue_overflows ∨
      (st.sender_thread_running = false ∧
        (wireshark_bridge_enable_command st sw addr).1.queue_overflows = 0)) := by
  refine ⟨?_, send_packets_overflows, ?_, ?_, ?_, ?_, ?_, ?_⟩
  · intro st sw data sec usec dir
    unfold wireshark_bridge_send_packet
    repeat' split
    all_goals first
      | exact Nat.le_refl _
      | exact Nat.le_succ _
  · intro st o
    unfold senderThreadIteration
    dsimp only
    by_cases h : 0 < st.queue_packets.length ∧ st.bridge_connected = true
    · rw [if_pos h, send_packets_overflows]
    · rw [if_neg h]
  · intro st sw
    unfold vl_api_wireshark_bridge_disable
    dsimp only
    repeat' split
    all_goals rfl
  · intro st sw
    unfold wireshark_bridge_disable_command
    cases hf : findInterface st.interfaces sw <;> simp [hf]
  · intro st
    unfold wireshark_bridge_exit
    dsimp only
    repeat' split
    all_goals rfl
  · intro st sw addr
    unfold vl_api_wireshark_bridge_enable
    dsimp only
    by_cases h1 : addr.head? = some '/'
    · rw [if_pos h1]
      by_cases h2 : 108 ≤ addr.length
      · rw [if_pos h2]; left; rfl
      · rw [if_neg h2]
        by_cases h3 : st.bridge_connected = true
        · rw [if_pos h3]; left; rfl
        · rw [if_neg h3]
          by_cases h4 : st.sender_thread_running = true
          · rw [if_pos h4]; left; rfl
          · rw [if_neg h4]; right; exact ⟨by simpa using h4, rfl⟩
    · rw [if_neg h1]
      cases hsp : splitAtColon addr with
      | none => left; rfl
      | some pr =>
        obtain ⟨ip, ps⟩ := pr
        dsimp only
        by_cases hp : atoiModel ps ≤ 0 ∨ 65535 < atoiModel ps
        · rw [if_pos hp]; left; rfl
        · rw [if_neg hp]
          by_cases h3 : st.bridge_connected = true
          · rw [if_pos h3]; left; rfl
          · rw [if_neg h3]
            cases hpt : parseIPv4 ip with
            | none => left; rfl
            | some a2 => left; rfl
  · intro st sw addr
    unfold wireshark_bridge_enable_command
    dsimp only
    by_cases h1 : addr.head? = some '/'
    · rw [if_pos h1]
      by_cases h2 : 108 ≤ addr.length
      · rw [if_pos h2]; left; rfl
      · rw [if_neg h2]
        by_cases h4 : st.sender_thread_running = true
        · rw [if_pos h4]; left; rfl
        · rw [if_neg h4]; right; exact ⟨by simpa using h4, rfl⟩
    · rw [if_neg h1]
      cases hsp : splitAtColon addr with
      | none => left; rfl
      | some pr =>
        obtain ⟨ip, ps⟩ := pr
        dsimp only
        by_cases hp : atoiModel ps ≤ 0 ∨ 65535 < atoiModel ps
        · rw [if_pos hp]; left; rfl
        · rw [if_neg hp]
          cases hpt : parseIPv4 ip with
          | none => left; rfl
          | some a2 =>
            dsimp only
            by_cases h4 : st.sender_thread_running = true
            · rw [if_pos h4]; left; rfl
            · rw [if_neg h4]; right; exact ⟨by simpa using h4, rfl⟩

/-- Unix-socket path used by the C6 counterexample run. -/
def c6Path : List Char := "/tmp/wb".toList

/-- Capture record on interface 5 used by the C6 counterexample run. -/
def c6Pkt : Packet := ⟨5, [9], 0, 0, .RX⟩

/-- State after an API enable of interface 5 from the freshly initialized
state (written out explicitly). -/
def c6St1x : WBState :=
  { interfaces := [⟨5, true, 0, 0, 0, 0⟩]
    bridge_socket := 3
    bridge_addr := .unix c6Path
    bridge_connected := true
    use_unix_socket := true
    socket_path := c6Path
    sender_thread_running := true
    queue_packets := []
    should_stop := false
    queue_overflows := 0 }

/-- Step 1 of the C6 run: enable interface 5 to a unix endpoint. -/
def c6St1 : WBState := (vl_api_wireshark_bridge_enable initialState 5 c6Path).1

/-- Step 2: 10001 capture attempts — the queue (bound 10000) overflows once. -/
def c6St2 : WBState := captureIter (fun _ => c6Pkt) c6St1 10001

theorem vl_disable_effects (st : WBState) (sw : Nat) :
    (vl_api_wireshark_bridge_disable st sw).1.queue_overflows = st.queue_overflows ∧
    (((markDisabledFirst st.interfaces sw).all (fun w => w.is_enabled = false) &&
        st.bridge_connected) = true →
      (vl_api_wireshark_bridge_disable st sw).1.bridge_connected = false ∧
      (vl_api_wireshark_bridge_disable st sw).1.sender_thread_running = false) := by
  constructor
  · unfold vl_api_wireshark_bridge_disable
    dsimp only
    repeat' split
    all_goals rfl
  · intro h
    unfold vl_api_wireshark_bridge_disable
    dsimp only
    rw [if_pos h]
    by_cases hr : st.sender_thread_running = true
    · rw [if_pos hr]
      exact ⟨rfl, rfl⟩
    · rw [if_neg hr]
      exact ⟨rfl, by simpa using hr⟩

theorem vl_enable_unix_restart (st : WBState) (sw : Nat) (addr : List Char)
    (hhead : addr.head? = some '/') (hlen : ¬ (108 ≤ addr.length))
    (hconn : ¬ (st.bridge_connected = true))
    (hrun : ¬ (st.sender_thread_running = true)) :
    (vl_api_wireshark_bridge_enable st sw addr).1.queue_overflows = 0 := by
  unfold vl_api_wireshark_bridge_enable
  dsimp only
  rw [if_pos hhead, if_neg hlen, if_neg hconn, if_neg hrun]

/-- Claim C6 counterexample: an operation sequence — enable interface 5,
make 10001 capture attempts (the queue bound 10000 overflows once), disable
interface 5 (tearing down the transport and sender thread), then re-enable —
after which the reported overflow counter has gone from 1 back down to 0:
the re-enable lowered it, so the counter is not monotonically non-decreasing
across operations. -/
theorem c6_counterexample :
    (vl_api_wireshark_bridge_disable c6St2 5).1.queue_overflows = 1 ∧
    (vl_api_wireshark_bridge_enable
        (vl_api_wireshark_bridge_disable c6St2 5).1 5 c6Path).1.queue_overflows
      = 0 := by
  have h1 : c6St1 = c6St1x := by decide
  have h2 : c6St2 = captureIter (fun _ => c6Pkt) c6St1x 10001 := by
    unfold c6St2
    rw [h1]
  have hpres := captureIter_preserves (fun _ => c6Pkt) c6St1x 10001
  have hint2 : c6St2.interfaces = [⟨5, true, 0, 0, 0, 0⟩] := by
    rw [h2, hpres.1]
    rfl
  have hconn2 : c6St2.bridge_connected = true := by
    rw [h2, hpres.2.1]
    rfl
  have hrun2 : c6St2.sender_thread_running = true := by
    rw [h2, hpres.2.2.1]
    rfl
  have hqs := captureIter_queue_spec c6St1x (fun _ => c6Pkt) rfl rfl
    (fun _ => ⟨⟨5, true, 0, 0, 0, 0⟩, rfl, rfl⟩) 10001
  have hov2 : c6St2.queue_overflows = 1 := by
    rw [h2, hqs.2]
    decide
  have hcond : ((markDisabledFirst c6St2.interfaces 5).all
      (fun w => w.is_enabled = false) && c6St2.bridge_connected) = true := by
    rw [hint2, hconn2]
    rfl
  have hd := vl_disable_effects c6St2 5
  have hov3 : (vl_api_wireshark_bridge_disable c6St2 5).1.queue_overflows = 1 := by
    rw [hd.1, hov2]
  have hteardown := hd.2 hcond
  have hconn3 : ¬ ((vl_api_wireshark_bridge_disable c6St2 5).1.bridge_connected
      = true) := by
    rw [hteardown.1]
    decide
  have hrun3 : ¬ ((vl_api_wireshark_bridge_disable c6St2 5).1.sender_thread_running
      = true) := by
    rw [hteardown.2]
    decide
  exact ⟨hov3, vl_enable_unix_restart (vl_api_wireshark_bridge_disable c6St2 5).1
    5 c6Path (by decide) (by decide) hconn3 hrun3⟩

end WiresharkBridge
